import Mathlib

/-!
Verification of elib.daemon (src/lib/elib/daemon/__init__.py, version 0.0.6).

The module exposes a single class `Daemon` with a constructor, `start`
(daemonize the calling process), `stop` (signal the daemon recorded in the
pid file), and the default SIGTERM handler `_terminate`.

Shallow embedding conventions:
  - The relevant POSIX world is an explicit `Sys` state: an association-list
    filesystem (path to content), the set of existing directories, the set of
    live pids, the outcome the kernel would give each of the two `os.fork`
    calls (and the child pid each would produce), the process-local state
    that `start` mutates (umask, cwd, effective ids, HOME, signal handler
    table, open descriptors, standard-stream bindings), a passwd table for
    `pwd.getpwuid(..).pw_dir`, and the RLIMIT_NOFILE hard limit
    (`none` models resource.RLIM_INFINITY).
  - Paths are taken as absolute, so `os.path.abspath` is the identity.
  - `sys.exit(msg)` (exit status 1, message on stderr) and `os._exit(code)`
    are modelled as explicit result constructors carrying the message / code.
  - Python `int(...)` / `str.strip()` / `%`-formatting are modelled by
    `pyInt`, `pyStrip`, `pyFormat` below, faithful to CPython semantics for
    the inputs that occur (decimal text with optional sign and surrounding
    whitespace; `%s`/`%r` conversions; "not enough arguments" TypeError).
  - `signal.signal` failures, `open` permission errors, and
    `pwd.getpwuid` KeyError are not modelled: files present in `Sys.files`
    are readable, and `homeLookup` yields "" for an unknown uid.
-/

namespace ElibDaemon

/-- Single-quote character, used to build the error strings of the source. -/
def sq : String := String.mk [Char.ofNat 39]

/-- Source line 44: default file mode creation mask of the daemon. -/
def UMASK : Nat := 0

/-- Source line 45: default maximum for the number of available file descriptors. -/
def MAXFD : Nat := 2048

/-- os.EX_OK on Linux. -/
def EX_OK : Nat := 0

/-- os.EX_OSERR on Linux. -/
def EX_OSERR : Nat := 71

/-- signal.SIGTERM on Linux. -/
def SIGTERM : Int := 15

/-- A value of the signal-handler table: the bound method `self._terminate`,
or an opaque user-supplied callable identified by a tag. -/
inductive Handler where
  | defaultTerminate
  | userH (tag : Nat)
deriving DecidableEq, Repr

/-- A Python argument value for the `user` / `group` parameters: `None`,
a `basestring`, an `int`, or a value of any other type (carrying the
rendering of `type(x)` used in the error message). -/
inductive PyVal where
  | vNone
  | vStr (s : String)
  | vInt (n : Int)
  | vOther (typeName : String)
deriving DecidableEq, Repr

/-- The identity database behind `pwd.getpwnam` / `grp.getgrnam`:
`none` means the name is unknown (Python raises KeyError). -/
structure NameDb where
  userByName : String → Option Int
  groupByName : String → Option Int

/-- The state a constructed `Daemon` object holds (source lines 85-120):
every field is set by `__init__`, with `user`/`group` already resolved to
`self.uid`/`self.gid`. -/
structure Daemon where
  pidfile : String
  workdir : String
  sigmap : List (Int × Handler)
  uid : Option Int
  gid : Option Int
  stdin : String
  stdout : String
  stderr : String
deriving DecidableEq, Repr

/-- Association-list lookup in the filesystem (path to file content). -/
def lookupFile : List (String × String) → String → Option String
  | [], _ => none
  | kv :: rest, p => if kv.1 = p then some kv.2 else lookupFile rest p

/-- Remove a path from the filesystem. -/
def removeFile : List (String × String) → String → List (String × String)
  | [], _ => []
  | kv :: rest, p => if kv.1 = p then removeFile rest p else kv :: removeFile rest p

/-- `open(p, wb)` followed by a write: truncate and set the content. -/
def setFile (fs : List (String × String)) (p v : String) : List (String × String) :=
  (p, v) :: removeFile fs p

/-- `open(p, a+)`: create the file empty when absent, keep it otherwise. -/
def touchAppend (fs : List (String × String)) (p : String) : List (String × String) :=
  match lookupFile fs p with
  | some _ => fs
  | none => (p, "") :: fs

/-- Signal-handler table lookup. -/
def lookupSig : List (Int × Handler) → Int → Option Handler
  | [], _ => none
  | kv :: rest, sig => if kv.1 = sig then some kv.2 else lookupSig rest sig

/-- Remove a signal from the handler table. -/
def removeSig : List (Int × Handler) → Int → List (Int × Handler)
  | [], _ => []
  | kv :: rest, sig => if kv.1 = sig then removeSig rest sig else kv :: removeSig rest sig

/-- One `signal.signal(sig, cb)` call: bind `sig` to `cb`. -/
def setSig (hs : List (Int × Handler)) (sig : Int) (cb : Handler) : List (Int × Handler) :=
  (sig, cb) :: removeSig hs sig

/-- Source lines 211-212: `for signum, callback in self.sigmap.items():
signal.signal(signum, callback)`. -/
def installAll (hs : List (Int × Handler)) (m : List (Int × Handler)) : List (Int × Handler) :=
  m.foldl (fun acc kv => setSig acc kv.1 kv.2) hs

/-- `pwd.getpwuid(uid).pw_dir` over an explicit passwd table
(an absent uid yields "" instead of KeyError, which is not modelled). -/
def homeLookup : List (Int × String) → Int → String
  | [], _ => ""
  | kv :: rest, u => if kv.1 = u then kv.2 else homeLookup rest u

/-- The POSIX world state threaded through `start`, `stop` and the handler. -/
structure Sys where
  files : List (String × String)
  dirs : List String
  live : List Int
  fork1Res : Option (Int × String)
  fork2Res : Option (Int × String)
  fork1Child : Int
  fork2Child : Int
  curPid : Int
  umask : Nat
  cwd : String
  egid : Int
  euid : Int
  envHome : Option String
  pwdb : List (Int × String)
  handlers : List (Int × Handler)
  rlimitNofile : Option Nat
  openFds : List Nat
  std0 : String
  std1 : String
  std2 : String
deriving DecidableEq, Repr

/-- The whitespace characters Python `str.strip()` and `int()` discard. -/
def pyWs : List Char := [' ', Char.ofNat 9, Char.ofNat 10, Char.ofNat 13, Char.ofNat 11, Char.ofNat 12]

/-- Python `str.strip()`. -/
def pyStrip (s : String) : String :=
  String.mk (((s.toList.dropWhile (fun c => pyWs.contains c)).reverse.dropWhile
    (fun c => pyWs.contains c)).reverse)

/-- Decimal digit test. -/
def isDig (c : Char) : Bool := decide (48 ≤ c.toNat) && decide (c.toNat ≤ 57)

/-- Value of a list of decimal digits. -/
def digitsToNat (cs : List Char) : Nat :=
  cs.foldl (fun a c => a * 10 + (c.toNat - 48)) 0

/-- Python 2 `int(s)` for base 10: optional surrounding whitespace, optional
single sign, then at least one decimal digit; anything else raises
ValueError, modelled as `none`. -/
def pyInt (s : String) : Option Int :=
  match (pyStrip s).toList with
  | [] => none
  | c :: rest =>
    if c = '+' then
      if !rest.isEmpty && rest.all isDig then some (Int.ofNat (digitsToNat rest)) else none
    else if c = '-' then
      if !rest.isEmpty && rest.all isDig then some (-(Int.ofNat (digitsToNat rest))) else none
    else if (c :: rest).all isDig then some (Int.ofNat (digitsToNat (c :: rest))) else none

/-- Number of conversion specifiers in a `%`-format string (`%%` is a
literal percent sign, not a specifier). -/
def specCount : List Char → Nat
  | [] => 0
  | '%' :: [] => 0
  | '%' :: c :: rest => if c = '%' then specCount rest else 1 + specCount rest
  | _ :: rest => specCount rest

/-- Python `repr` of a string: the text between single quotes (escaping of
special characters is not modelled; none occurs here). -/
def pyRepr (s : String) : List Char :=
  Char.ofNat 39 :: s.toList ++ [Char.ofNat 39]

/-- Substitution pass of `%`-formatting, consuming one argument per
specifier; only well-counted calls reach it. -/
def pySubst : List Char → List String → List Char
  | [], _ => []
  | '%' :: [], _ => []
  | '%' :: c :: rest, args =>
    if c = '%' then '%' :: pySubst rest args
    else if c = 's' then (args.headD "").toList ++ pySubst rest args.tail
    else if c = 'r' then pyRepr (args.headD "") ++ pySubst rest args.tail
    else pySubst rest args.tail
  | c :: rest, args => c :: pySubst rest args

/-- Python `fmt % args`: raises TypeError (modelled as `Except.error` with
CPython's message) when the argument count does not match the number of
specifiers. A single non-tuple argument is the one-element list. -/
def pyFormat (fmt : String) (args : List String) : Except String String :=
  let n := specCount fmt.toList
  if args.length < n then Except.error "not enough arguments for format string"
  else if n < args.length then Except.error "not all arguments converted during string formatting"
  else Except.ok (String.mk (pySubst fmt.toList args))

/-- `posixpath.dirname` (paths are taken as absolute, `abspath` is identity). -/
def dirname (p : String) : String :=
  let head := ((p.toList.reverse.dropWhile (fun c => c != '/')).reverse)
  if head.isEmpty then ""
  else if head.all (fun c => c == '/') then String.mk head
  else String.mk ((head.reverse.dropWhile (fun c => c == '/')).reverse)

/-- Rendering of an optional string by `%s` (Python `None` prints as "None"). -/
def pyOptStr : Option String → String
  | none => "None"
  | some s => s

/-- Outcome of `Daemon.__init__` (source lines 85-120): a constructed
object, a `sys.exit(msg)`, an uncaught TypeError, or an uncaught KeyError
from `pwd.getpwnam` / `grp.getgrnam`. -/
inductive InitResult where
  | ok (d : Daemon)
  | sysExit (msg : String)
  | typeError (msg : String)
  | keyError (name : String)
deriving DecidableEq, Repr

/-- Source lines 100-107: resolution of the `user` argument to `self.uid`. -/
def resolveUser (db : NameDb) (v : PyVal) : Except InitResult (Option Int) :=
  match v with
  | PyVal.vNone => Except.ok none
  | PyVal.vStr s =>
    match db.userByName s with
    | some u => Except.ok (some u)
    | none => Except.error (InitResult.keyError s)
  | PyVal.vInt n => Except.ok (some n)
  | PyVal.vOther t =>
    Except.error (InitResult.typeError ("user must be a string or int, but received a " ++ t))

/-- Source lines 109-116: resolution of the `group` argument to `self.gid`. -/
def resolveGroup (db : NameDb) (v : PyVal) : Except InitResult (Option Int) :=
  match v with
  | PyVal.vNone => Except.ok none
  | PyVal.vStr s =>
    match db.groupByName s with
    | some g => Except.ok (some g)
    | none => Except.error (InitResult.keyError s)
  | PyVal.vInt n => Except.ok (some n)
  | PyVal.vOther t =>
    Except.error (InitResult.typeError ("group must be a string or int, but received a " ++ t))

/-- The test guarding the workdir rejection (source line 90):
`workdir is None or not os.path.isdir(workdir)` is `wdOk = false`. -/
def wdOk (workdir : Option String) (dirs : List String) : Bool :=
  match workdir with
  | none => false
  | some w => dirs.contains w

/-- `Daemon.__init__` (source lines 53-120). `dirs` is the set of existing
directories consulted by `os.path.isdir`. -/
def Daemon.init (db : NameDb) (dirs : List String)
    (pidfile : Option String) (workdir : Option String)
    (sigmap : Option (List (Int × Handler)))
    (user group : PyVal)
    (stdin stdout stderr : String) : InitResult :=
  match pidfile with
  | none => InitResult.sysExit "Error: no pid file specified"
  | some pf =>
    if wdOk workdir dirs = false then
      InitResult.sysExit ("Error: workdir " ++ sq ++ pyOptStr workdir ++ sq ++ " does not exist")
    else
      let wd := match workdir with | some w => w | none => ""
      let sm := match sigmap with
        | none => [(SIGTERM, Handler.defaultTerminate)]
        | some m => m
      match resolveUser db user with
      | Except.error r => r
      | Except.ok uidv =>
        match resolveGroup db group with
        | Except.error r => r
        | Except.ok gidv =>
          InitResult.ok { pidfile := pf, workdir := wd, sigmap := sm, uid := uidv, gid := gidv,
                          stdin := stdin, stdout := stdout, stderr := stderr }

/-- Trace events recording the externally visible steps of `Daemon.start`,
in the order the source performs them. -/
inductive Ev where
  | mkdirs (path : String)
  | forkParentExit
  | setsid
  | forkIntermediateExit
  | writePid (path : String) (content : String)
  | umaskSet (m : Nat)
  | chdir (d : String)
  | setegid (g : Int)
  | seteuid (u : Int)
  | setHome (h : String)
  | sigInstall (s : Int)
  | closeFds
  | redirect
deriving DecidableEq, Repr

/-- Abrupt terminations of the process attempting `start`: the
already-running bailout (`os._exit(os.EX_OSERR)` after the stderr report,
source lines 147-151), a failed fork (lines 162-165 / 183-186), or an
uncaught IOError from `open(self.stdin, "r")` (line 237). -/
inductive StartErr where
  | alreadyRunning (pid : Int) (stderrMsg : String) (exitCode : Nat)
  | forkFailed (which : Nat) (stderrMsg : String) (exitCode : Nat)
  | uncaughtIOError (path : String)
deriving DecidableEq, Repr

/-- The singleton guard's pid read (source lines 136-139):
`int(f.read().strip())`, with IOError (missing file) and ValueError
(unparsable content) both collapsing to `none` by the `except` clause. -/
def readPid (files : List (String × String)) (path : String) : Option Int :=
  match lookupFile files path with
  | none => none
  | some content => pyInt (pyStrip content)

/-- Source lines 154-156: for each of pidfile/stdin/stdout/stderr whose
parent directory does not exist, `os.makedirs(dirname(f), 0o755)`.
Returns the resulting directory set and the list of directories created. -/
def ensureDirs : List String → List String → List String × List String
  | dirs, [] => (dirs, [])
  | dirs, f :: rest =>
    let dp := dirname f
    if dirs.contains dp then ensureDirs dirs rest
    else
      let r := ensureDirs (dp :: dirs) rest
      (r.1, dp :: r.2)

/-- Source lines 153-252: the body of `Daemon.start` after the singleton
guard. Linear translation; each `let sN` is the process/world state after
one source step, and the returned trace records the steps in source order. -/
def Daemon.startDetach (d : Daemon) (s : Sys) : Except StartErr (Sys × List Ev) :=
  -- lines 154-156: ensure directories for pidfile and std(in|out|err) exist
  let ed := ensureDirs s.dirs [d.pidfile, d.stdin, d.stdout, d.stderr]
  let s1 : Sys := { s with dirs := ed.1 }
  let mkEvs : List Ev := ed.2.map Ev.mkdirs
  -- lines 159-165: first fork; the parent exits via os._exit(os.EX_OK)
  match s.fork1Res with
  | some e =>
    Except.error (StartErr.forkFailed 1
      ("First fork failed: (" ++ toString e.1 ++ ") " ++ e.2 ++ "\n") EX_OSERR)
  | none =>
    let s2 : Sys := { s1 with curPid := s.fork1Child }
    let t2 : List Ev := mkEvs ++ [Ev.forkParentExit]
    -- line 170: os.setsid()
    let t3 : List Ev := t2 ++ [Ev.setsid]
    -- lines 180-186: second fork; the intermediate child exits via os._exit
    match s.fork2Res with
    | some e =>
      Except.error (StartErr.forkFailed 2
        ("Second fork failed: (" ++ toString e.1 ++ ") " ++ e.2 ++ "\n") EX_OSERR)
    | none =>
      let s4 : Sys := { s2 with curPid := s.fork2Child }
      let t4 : List Ev := t3 ++ [Ev.forkIntermediateExit]
      -- lines 189-190: write pid file, open(self.pidfile, wb) truncates
      let s5 : Sys := { s4 with files := setFile s4.files d.pidfile (toString s.fork2Child) }
      let t5 : List Ev := t4 ++ [Ev.writePid d.pidfile (toString s.fork2Child)]
      -- line 193: os.umask(UMASK)
      let s6 : Sys := { s5 with umask := UMASK }
      let t6 : List Ev := t5 ++ [Ev.umaskSet UMASK]
      -- line 199: os.chdir(self.workdir)
      let s7 : Sys := { s6 with cwd := d.workdir }
      let t7 : List Ev := t6 ++ [Ev.chdir d.workdir]
      -- lines 202-203: os.setegid(self.gid) when gid is not None
      let s8 : Sys := { s7 with egid := d.gid.getD s7.egid }
      let t8 : List Ev := t7 ++ (match d.gid with | some g => [Ev.setegid g] | none => [])
      -- lines 206-208: os.seteuid(self.uid) and HOME update when uid is not None
      let s9 : Sys := { s8 with euid := d.uid.getD s8.euid,
                                envHome := d.uid.elim s8.envHome
                                  (fun u => some (homeLookup s.pwdb u)) }
      let t9 : List Ev := t8 ++ (match d.uid with
        | some u => [Ev.seteuid u, Ev.setHome (homeLookup s.pwdb u)]
        | none => [])
      -- lines 211-212: signal.signal for each sigmap entry
      let s10 : Sys := { s9 with handlers := installAll s9.handlers d.sigmap }
      let t10 : List Ev := t9 ++ d.sigmap.map (fun kv => Ev.sigInstall kv.1)
      -- lines 216-234: close all fds below the RLIMIT_NOFILE hard limit
      -- (MAXFD when RLIM_INFINITY) except the std fds 0, 1, 2; self.stdin,
      -- self.stdout, self.stderr are path strings without fileno(), so the
      -- exclude list is the filenos of sys.stdin/stdout/stderr.
      -- Closing an fd that is not open raises EBADF, which is ignored.
      let maxfd := s.rlimitNofile.getD MAXFD
      let excl : List Nat := [0, 1, 2]
      let fds := s10.openFds.filter (fun fd => excl.contains fd || decide (maxfd ≤ fd))
      let s11 : Sys := { s10 with openFds := fds }
      let t11 : List Ev := t10 ++ [Ev.closeFds]
      -- lines 237-252: redirect std(in|out|err); open(self.stdin, "r")
      -- raises IOError when the file is absent, open(.., "a+", 0) creates it
      match lookupFile s11.files d.stdin with
      | none => Except.error (StartErr.uncaughtIOError d.stdin)
      | some _ =>
        let s12 : Sys := { s11 with
          files := touchAppend (touchAppend s11.files d.stdout) d.stderr,
          std0 := d.stdin, std1 := d.stdout, std2 := d.stderr }
        let t12 : List Ev := t11 ++ [Ev.redirect]
        Except.ok (s12, t12)

/-- `Daemon.start` (source lines 122-252): the singleton guard (lines
135-151) followed by the detachment body. `os.kill(pid, 0)` succeeds
exactly for the live pids of the world. -/
def Daemon.start (d : Daemon) (s : Sys) : Except StartErr (Sys × List Ev) :=
  match readPid s.files d.pidfile with
  | some pid =>
    if s.live.contains pid then
      Except.error (StartErr.alreadyRunning pid
        ("Already running as " ++ toString pid ++ "\n") EX_OSERR)
    else d.startDetach s
  | none => d.startDetach s

/-- Outcome of `Daemon.stop` (source lines 254-276): a `sys.exit(msg)`, an
uncaught TypeError, SIGTERM delivered to a live pid, or the OSError from
`os.kill` on a dead pid being swallowed (a normal, successful return). -/
inductive StopResult where
  | sysExit (msg : String)
  | typeError (msg : String)
  | signaled (pid : Int)
  | noop (pid : Int)
deriving DecidableEq, Repr

/-- `Daemon.stop` (source lines 254-276). `self.pidfile is None` (line 259)
cannot hold for a constructed `Daemon`, and an existing file is readable in
this model, so the `except IOError` branch of lines 267-268 is unreachable.
On unparsable content the source formats
`'Error: mangled pidfile %s: %r' % self.pidfile` — two specifiers, one
argument — so `pyFormat` faithfully yields the TypeError CPython raises. -/
def Daemon.stop (d : Daemon) (s : Sys) : StopResult :=
  match lookupFile s.files d.pidfile with
  | none =>
    StopResult.sysExit ("Error: pid file " ++ sq ++ d.pidfile ++ sq ++ " does not exist")
  | some content =>
      match pyInt (pyStrip content) with
      | some pid =>
        if s.live.contains pid then StopResult.signaled pid else StopResult.noop pid
      | none =>
        match pyFormat "Error: mangled pidfile %s: %r" [d.pidfile] with
        | Except.ok msg => StopResult.sysExit msg
        | Except.error e => StopResult.typeError e

/-- Observable outcome of the default SIGTERM handler. -/
structure TermOutcome where
  files : List (String × String)
  exitCode : Nat
  stderrMsg : String
deriving DecidableEq, Repr

/-- `Daemon._terminate` (source lines 278-279): the entire body is
`sys.exit('Terminating on signal %s' % signum)` — CPython prints the
message to stderr and exits with status 1; the filesystem (in particular
the pid file) is left untouched and no callback is invoked. -/
def Daemon.terminateHandler (_d : Daemon) (s : Sys) (signum : Int) : TermOutcome :=
  { files := s.files, exitCode := 1, stderrMsg := "Terminating on signal " ++ toString signum }

/-- A name database that knows no names (names play no role in the fixtures). -/
def db0 : NameDb := { userByName := fun _ => none, groupByName := fun _ => none }

/-- A fully featured configuration: user and group switching, a SIGTERM
handler, log redirection. -/
def d0 : Daemon :=
  { pidfile := "/run/d.pid", workdir := "/", sigmap := [(15, Handler.defaultTerminate)],
    uid := some 1000, gid := some 20,
    stdin := "/dev/null", stdout := "/tmp/d.log", stderr := "/tmp/d.log" }

/-- A minimal configuration without identity change. -/
def dR : Daemon :=
  { pidfile := "/run/d.pid", workdir := "/", sigmap := [(15, Handler.defaultTerminate)],
    uid := none, gid := none,
    stdin := "/dev/null", stdout := "/dev/null", stderr := "/dev/null" }

/-- A configuration whose supplied sigmap names only SIGHUP (1). -/
def dHup : Daemon :=
  { pidfile := "/run/d.pid", workdir := "/", sigmap := [(1, Handler.userH 7)],
    uid := none, gid := none,
    stdin := "/dev/null", stdout := "/dev/null", stderr := "/dev/null" }

/-- A world with no pid file, both forks succeeding, and every parent
directory of the fixture configurations present. -/
def sysBase : Sys :=
  { files := [("/dev/null", "")], dirs := ["/", "/dev", "/run", "/tmp"], live := [],
    fork1Res := none, fork2Res := none, fork1Child := 101, fork2Child := 102,
    curPid := 100, umask := 18, cwd := "/home/op", egid := 0, euid := 0,
    envHome := some "/root", pwdb := [(1000, "/home/svc")], handlers := [],
    rlimitNofile := some 16, openFds := [0, 1, 2, 3, 7],
    std0 := "", std1 := "", std2 := "" }

/-- The base world with a pid file naming the live process 4242. -/
def sysRun : Sys :=
  { sysBase with files := [("/run/d.pid", " 4242\n"), ("/dev/null", "")], live := [4242] }

/-- The base world with a pid file naming the dead process 4242. -/
def sysGone : Sys :=
  { sysBase with files := [("/run/d.pid", "4242"), ("/dev/null", "")], live := [] }

/-- The base world with a pid file holding non-numeric text. -/
def sysMangled : Sys :=
  { sysBase with files := [("/run/d.pid", "abc"), ("/dev/null", "")] }

/-- The state `d0.start sysBase` leaves the surviving process in. -/
def sF0 : Sys :=
  { sysBase with
    files := [("/tmp/d.log", ""), ("/run/d.pid", "102"), ("/dev/null", "")],
    curPid := 102, umask := 0, cwd := "/", egid := 20, euid := 1000,
    envHome := some "/home/svc", handlers := [(15, Handler.defaultTerminate)],
    openFds := [0, 1, 2], std0 := "/dev/null", std1 := "/tmp/d.log", std2 := "/tmp/d.log" }

/-- The trace `d0.start sysBase` produces. -/
def tr0 : List Ev :=
  [Ev.forkParentExit, Ev.setsid, Ev.forkIntermediateExit,
   Ev.writePid "/run/d.pid" "102", Ev.umaskSet 0, Ev.chdir "/",
   Ev.setegid 20, Ev.seteuid 1000, Ev.setHome "/home/svc",
   Ev.sigInstall 15, Ev.closeFds, Ev.redirect]

/-- The state `dHup.start sysBase` leaves the surviving process in. -/
def sFHup : Sys :=
  { sysBase with
    files := [("/run/d.pid", "102"), ("/dev/null", "")],
    curPid := 102, umask := 0, cwd := "/", handlers := [(1, Handler.userH 7)],
    openFds := [0, 1, 2], std0 := "/dev/null", std1 := "/dev/null", std2 := "/dev/null" }

/-- The trace `dHup.start sysBase` produces. -/
def trHup : List Ev :=
  [Ev.forkParentExit, Ev.setsid, Ev.forkIntermediateExit,
   Ev.writePid "/run/d.pid" "102", Ev.umaskSet 0, Ev.chdir "/",
   Ev.sigInstall 1, Ev.closeFds, Ev.redirect]

/-- The state `dR.start sysBase` leaves the surviving process in. -/
def sFR : Sys :=
  { sysBase with
    files := [("/run/d.pid", "102"), ("/dev/null", "")],
    curPid := 102, umask := 0, cwd := "/", handlers := [(15, Handler.defaultTerminate)],
    openFds := [0, 1, 2], std0 := "/dev/null", std1 := "/dev/null", std2 := "/dev/null" }

/-- The trace `dR.start sysBase` produces. -/
def trR : List Ev :=
  [Ev.forkParentExit, Ev.setsid, Ev.forkIntermediateExit,
   Ev.writePid "/run/d.pid" "102", Ev.umaskSet 0, Ev.chdir "/",
   Ev.sigInstall 15, Ev.closeFds, Ev.redirect]

/-- Lookup after a truncating write finds the written content. -/
theorem lookupFile_setFile_self (fs : List (String × String)) (p v : String) :
    lookupFile (setFile fs p v) p = some v := by
  simp [setFile, lookupFile]

/-- An append-mode open never changes the content an existing path maps to. -/
theorem lookupFile_touchAppend_of_some (fs : List (String × String)) (q p v : String)
    (h : lookupFile fs p = some v) : lookupFile (touchAppend fs q) p = some v := by
  cases hq : lookupFile fs q with
  | some w => simp [touchAppend, hq, h]
  | none =>
    have hqp : q ≠ p := by
      intro e
      rw [e, h] at hq
      exact Option.noConfusion hq
    simp [touchAppend, hq, lookupFile, hqp, h]

/-- Removing one signal binding leaves other signals untouched. -/
theorem lookupSig_removeSig_ne (hs : List (Int × Handler)) (a sig : Int) (h : a ≠ sig) :
    lookupSig (removeSig hs a) sig = lookupSig hs sig := by
  induction hs with
  | nil => rfl
  | cons kv rest ih =>
    simp only [removeSig, lookupSig]
    by_cases he : kv.1 = a
    · rw [if_pos he, ih, if_neg (fun e => h (he.symm.trans e))]
    · rw [if_neg he]
      simp only [lookupSig]
      by_cases h2 : kv.1 = sig
      · rw [if_pos h2, if_pos h2]
      · rw [if_neg h2, if_neg h2, ih]

/-- `signal.signal` on one signal leaves other signals untouched. -/
theorem lookupSig_setSig_ne (hs : List (Int × Handler)) (a : Int) (cb : Handler) (sig : Int)
    (h : a ≠ sig) : lookupSig (setSig hs a cb) sig = lookupSig hs sig := by
  simp [setSig, lookupSig, h, lookupSig_removeSig_ne hs a sig h]

/-- Installing a handler table leaves every signal it does not name with
its previous disposition. -/
theorem lookupSig_installAll_of_none (m : List (Int × Handler)) (hs : List (Int × Handler))
    (sig : Int) (h : lookupSig m sig = none) :
    lookupSig (installAll hs m) sig = lookupSig hs sig := by
  induction m generalizing hs with
  | nil => rfl
  | cons kv rest ih =>
    simp only [lookupSig] at h
    by_cases he : kv.1 = sig
    · rw [if_pos he] at h
      exact Option.noConfusion h
    · rw [if_neg he] at h
      have hstep : installAll hs (kv :: rest) = installAll (setSig hs kv.1 kv.2) rest := rfl
      rw [hstep, ih _ h, lookupSig_setSig_ne hs kv.1 kv.2 sig he]

/-- Full characterization of a successful pass through the detachment body:
the surviving pid, the final filesystem, the final handler table and the
step trace, straight from the linear structure of the source. -/
theorem startDetach_ok (d : Daemon) (s sF : Sys) (tr : List Ev)
    (h : d.startDetach s = Except.ok (sF, tr)) :
    sF.curPid = s.fork2Child ∧
    sF.files = touchAppend (touchAppend
        (setFile s.files d.pidfile (toString s.fork2Child)) d.stdout) d.stderr ∧
    sF.handlers = installAll s.handlers d.sigmap ∧
    tr = (ensureDirs s.dirs [d.pidfile, d.stdin, d.stdout, d.stderr]).2.map Ev.mkdirs
      ++ ([Ev.forkParentExit, Ev.setsid, Ev.forkIntermediateExit,
          Ev.writePid d.pidfile (toString s.fork2Child), Ev.umaskSet UMASK, Ev.chdir d.workdir]
      ++ (match d.gid with | some g => [Ev.setegid g] | none => [])
      ++ (match d.uid with | some u => [Ev.seteuid u, Ev.setHome (homeLookup s.pwdb u)] | none => [])
      ++ d.sigmap.map (fun kv => Ev.sigInstall kv.1)
      ++ [Ev.closeFds, Ev.redirect]) := by
  simp only [Daemon.startDetach] at h
  split at h
  · exact Except.noConfusion h
  · split at h
    · exact Except.noConfusion h
    · split at h
      · exact Except.noConfusion h
      · injection h with h12
        injection h12 with hs ht
        subst hs
        subst ht
        refine ⟨rfl, rfl, rfl, ?_⟩
        simp [List.append_assoc]

/-- A successful `start` went through the detachment body. -/
theorem start_ok_detach (d : Daemon) (s sF : Sys) (tr : List Ev)
    (hok : d.start s = Except.ok (sF, tr)) :
    d.startDetach s = Except.ok (sF, tr) := by
  simp only [Daemon.start] at hok
  split at hok
  · split at hok
    · exact Except.noConfusion hok
    · exact hok
  · exact hok

/-- The detachment body never reports the already-running bailout; only the
singleton guard does. -/
theorem startDetach_not_alreadyRunning (d : Daemon) (s : Sys) (pid : Int) (msg : String)
    (c : Nat) : d.startDetach s ≠ Except.error (StartErr.alreadyRunning pid msg c) := by
  intro h
  simp only [Daemon.startDetach] at h
  split at h
  · simp at h
  · split at h
    · simp at h
    · split at h
      · simp at h
      · simp at h

/-- When `resolveUser` raises, the exception is a KeyError or a TypeError,
never a constructed object. -/
theorem resolveUser_error_shape (db : NameDb) (v : PyVal) (r : InitResult)
    (h : resolveUser db v = Except.error r) :
    (∃ n, r = InitResult.keyError n) ∨ (∃ m, r = InitResult.typeError m) := by
  cases v with
  | vNone =>
    simp only [resolveUser] at h
    exact Except.noConfusion h
  | vStr s =>
    simp only [resolveUser] at h
    split at h
    · exact Except.noConfusion h
    · injection h with h2
      exact Or.inl ⟨s, h2.symm⟩
  | vInt n =>
    simp only [resolveUser] at h
    exact Except.noConfusion h
  | vOther t =>
    simp only [resolveUser] at h
    injection h with h2
    exact Or.inr ⟨_, h2.symm⟩

/-- When `resolveGroup` raises, the exception is a KeyError or a TypeError,
never a constructed object. -/
theorem resolveGroup_error_shape (db : NameDb) (v : PyVal) (r : InitResult)
    (h : resolveGroup db v = Except.error r) :
    (∃ n, r = InitResult.keyError n) ∨ (∃ m, r = InitResult.typeError m) := by
  cases v with
  | vNone =>
    simp only [resolveGroup] at h
    exact Except.noConfusion h
  | vStr s =>
    simp only [resolveGroup] at h
    split at h
    · exact Except.noConfusion h
    · injection h with h2
      exact Or.inl ⟨s, h2.symm⟩
  | vInt n =>
    simp only [resolveGroup] at h
    exact Except.noConfusion h
  | vOther t =>
    simp only [resolveGroup] at h
    injection h with h2
    exact Or.inr ⟨_, h2.symm⟩

/-- Inversion of a successful construction: the sigmap the object holds is
the supplied mapping verbatim, or the singleton default table when no
mapping was supplied. -/
theorem init_ok_sigmap (db : NameDb) (dirs : List String) (pf : String) (w : Option String)
    (sm : Option (List (Int × Handler))) (u g : PyVal) (si so se : String) (d : Daemon)
    (hok : Daemon.init db dirs (some pf) w sm u g si so se = InitResult.ok d) :
    (sm = none → d.sigmap = [(SIGTERM, Handler.defaultTerminate)])
    ∧ (∀ m, sm = some m → d.sigmap = m) := by
  simp only [Daemon.init] at hok
  split at hok
  · exact InitResult.noConfusion hok
  · split at hok
    · rename_i r heq
      rcases resolveUser_error_shape db u r heq with ⟨n, rfl⟩ | ⟨m, rfl⟩
      · exact InitResult.noConfusion hok
      · exact InitResult.noConfusion hok
    · split at hok
      · rename_i r heq
        rcases resolveGroup_error_shape db g r heq with ⟨n, rfl⟩ | ⟨m, rfl⟩
        · exact InitResult.noConfusion hok
        · exact InitResult.noConfusion hok
      · injection hok with h2
        constructor
        · intro hnone
          subst hnone
          rw [← h2]
        · intro m hsome
          subst hsome
          rw [← h2]

/-- C1: whenever `Daemon.start` returns, the detachment steps were executed
in exactly the specified order — first fork (parent exits abruptly), new
session, second fork (intermediate exits abruptly), pid-file write, umask
reset to 0, change into the working directory, effective group switch
strictly before effective user switch (with HOME updated when a user is
configured), signal-handler installation, descriptor closing, and stream
redirection last — preceded only by the directory-creation housekeeping,
and control returns only in the surviving grandchild process. -/
theorem start_detachment_order (d : Daemon) (s sF : Sys) (tr : List Ev)
    (hok : d.start s = Except.ok (sF, tr)) :
    (∃ mk, (∀ e ∈ mk, ∃ p, e = Ev.mkdirs p) ∧
      tr = mk ++ ([Ev.forkParentExit, Ev.setsid, Ev.forkIntermediateExit,
            Ev.writePid d.pidfile (toString s.fork2Child), Ev.umaskSet 0, Ev.chdir d.workdir]
        ++ (match d.gid with | some g => [Ev.setegid g] | none => [])
        ++ (match d.uid with | some u => [Ev.seteuid u, Ev.setHome (homeLookup s.pwdb u)] | none => [])
        ++ d.sigmap.map (fun kv => Ev.sigInstall kv.1)
        ++ [Ev.closeFds, Ev.redirect]))
    ∧ sF.curPid = s.fork2Child := by
  obtain ⟨hc, _, _, ht⟩ := startDetach_ok d s sF tr (start_ok_detach d s sF tr hok)
  refine ⟨⟨(ensureDirs s.dirs [d.pidfile, d.stdin, d.stdout, d.stderr]).2.map Ev.mkdirs,
    ?_, ?_⟩, hc⟩
  · intro e he
    obtain ⟨p, _, rfl⟩ := List.mem_map.mp he
    exact ⟨p, rfl⟩
  · rw [ht]
    rfl

/-- Witness for C1 at a configuration with group 20, user 1000 and a
SIGTERM handler, in a world where both forks succeed. -/
theorem start_detachment_order_wit :
    d0.start sysBase = Except.ok (sF0, tr0) ∧
    ((∃ mk, (∀ e ∈ mk, ∃ p, e = Ev.mkdirs p) ∧
        tr0 = mk ++ ([Ev.forkParentExit, Ev.setsid, Ev.forkIntermediateExit,
              Ev.writePid "/run/d.pid" "102", Ev.umaskSet 0, Ev.chdir "/"]
          ++ [Ev.setegid 20] ++ [Ev.seteuid 1000, Ev.setHome "/home/svc"]
          ++ [Ev.sigInstall 15] ++ [Ev.closeFds, Ev.redirect]))
      ∧ sF0.curPid = sysBase.fork2Child) :=
  ⟨rfl, start_detachment_order d0 sysBase sF0 tr0 rfl⟩

/-- C2: after every successful `start`, the pid file holds exactly the
decimal pid of the surviving process (the grandchild of the second fork)
and nothing else, whatever it held before. -/
theorem start_pidfile_roundtrip (d : Daemon) (s sF : Sys) (tr : List Ev)
    (hok : d.start s = Except.ok (sF, tr)) :
    lookupFile sF.files d.pidfile = some (toString sF.curPid) ∧ sF.curPid = s.fork2Child := by
  obtain ⟨hc, hf, _, _⟩ := startDetach_ok d s sF tr (start_ok_detach d s sF tr hok)
  refine ⟨?_, hc⟩
  rw [hf, hc]
  exact lookupFile_touchAppend_of_some _ _ _ _
    (lookupFile_touchAppend_of_some _ _ _ _ (lookupFile_setFile_self _ _ _))

/-- Witness for C2: the fixture start writes "102", the pid of the
surviving grandchild. -/
theorem start_pidfile_roundtrip_wit :
    dR.start sysBase = Except.ok (sFR, trR) ∧
    (lookupFile sFR.files dR.pidfile = some (toString sFR.curPid)
      ∧ sFR.curPid = sysBase.fork2Child) :=
  ⟨rfl, start_pidfile_roundtrip dR sysBase sFR trR rfl⟩

/-- C3 counterexample: at a concrete world whose pid file holds "4242", the
default termination handler exits with status 1 (not a success status) and
leaves the pid file in place — refuting the claimed clean shutdown. -/
theorem terminate_counterexample :
    ¬((dR.terminateHandler sysGone 15).exitCode = 0) ∧
    lookupFile (dR.terminateHandler sysGone 15).files "/run/d.pid" = some "4242" ∧
    (dR.terminateHandler sysGone 15).stderrMsg = "Terminating on signal 15" := by
  refine ⟨by decide, rfl, rfl⟩

/-- C3 amended: the default termination handler only calls
`sys.exit("Terminating on signal N")` — a failure exit status of 1 with
the message on stderr; it invokes no user callback and deletes nothing. -/
theorem terminate_exits_with_message (d : Daemon) (s : Sys) (signum : Int) :
    d.terminateHandler s signum =
      { files := s.files, exitCode := 1,
        stderrMsg := "Terminating on signal " ++ toString signum } := rfl

/-- C4 counterexample: supplying a sigmap that names only SIGHUP yields a
daemon whose table has no SIGTERM entry at all, and after a successful
`start` no SIGTERM handler has been installed — refuting the claim that a
default termination handler is installed whenever the supplied mapping
lacks a SIGTERM entry. -/
theorem sigmap_counterexample :
    Daemon.init db0 ["/", "/dev", "/run"] (some "/run/d.pid") (some "/")
      (some [(1, Handler.userH 7)]) PyVal.vNone PyVal.vNone "/dev/null" "/dev/null" "/dev/null"
      = InitResult.ok dHup
    ∧ lookupSig dHup.sigmap SIGTERM = none
    ∧ dHup.start sysBase = Except.ok (sFHup, trHup)
    ∧ lookupSig sFHup.handlers SIGTERM = none :=
  ⟨rfl, rfl, rfl, rfl⟩

/-- C4 amended: the default SIGTERM handler is installed only when no
mapping at all is supplied (`sigmap is None`); a supplied mapping is used
verbatim, and `start` leaves every signal the mapping does not name with
its previous disposition. -/
theorem sigmap_default_only_when_none (db : NameDb) (dirs : List String) (pf : String)
    (w : Option String) (sm : Option (List (Int × Handler))) (u g : PyVal)
    (si so se : String) (d : Daemon)
    (hok : Daemon.init db dirs (some pf) w sm u g si so se = InitResult.ok d) :
    (sm = none → d.sigmap = [(SIGTERM, Handler.defaultTerminate)])
    ∧ (∀ m, sm = some m → d.sigmap = m)
    ∧ (∀ s sF tr, d.start s = Except.ok (sF, tr) →
        ∀ sig, lookupSig d.sigmap sig = none →
          lookupSig sF.handlers sig = lookupSig s.handlers sig) := by
  obtain ⟨h1, h2⟩ := init_ok_sigmap db dirs pf w sm u g si so se d hok
  refine ⟨h1, h2, ?_⟩
  intro s sF tr hstart sig hnone
  obtain ⟨_, _, hh, _⟩ := startDetach_ok d s sF tr (start_ok_detach d s sF tr hstart)
  rw [hh]
  exact lookupSig_installAll_of_none d.sigmap s.handlers sig hnone

/-- Witness for C4 at the SIGHUP-only fixture configuration. -/
theorem sigmap_default_only_when_none_wit :
    Daemon.init db0 ["/", "/dev", "/run"] (some "/run/d.pid") (some "/")
      (some [(1, Handler.userH 7)]) PyVal.vNone PyVal.vNone "/dev/null" "/dev/null" "/dev/null"
      = InitResult.ok dHup ∧
    ((some [((1 : Int), Handler.userH 7)] = none
        → dHup.sigmap = [(SIGTERM, Handler.defaultTerminate)])
     ∧ (∀ m, some [((1 : Int), Handler.userH 7)] = some m → dHup.sigmap = m)
     ∧ (∀ s sF tr, dHup.start s = Except.ok (sF, tr) →
         ∀ sig, lookupSig dHup.sigmap sig = none →
           lookupSig sF.handlers sig = lookupSig s.handlers sig)) :=
  ⟨rfl, sigmap_default_only_when_none db0 ["/", "/dev", "/run"] "/run/d.pid" (some "/")
    (some [(1, Handler.userH 7)]) PyVal.vNone PyVal.vNone "/dev/null" "/dev/null" "/dev/null"
    dHup rfl⟩

/-- C5: when the pid file parses to a pid that is alive (the zero-signal
probe succeeds), `start` aborts via `os._exit(os.EX_OSERR)` after writing
"Already running as pid" to stderr — an outcome distinct from every other
failure constructor — and nothing of the detachment sequence (in
particular no fork) happens. -/
theorem start_already_running_abort (d : Daemon) (s : Sys) (pid : Int)
    (h1 : readPid s.files d.pidfile = some pid)
    (h2 : s.live.contains pid = true) :
    d.start s = Except.error (StartErr.alreadyRunning pid
      ("Already running as " ++ toString pid ++ "\n") EX_OSERR)
    ∧ ∀ sF tr, d.start s ≠ Except.ok (sF, tr) := by
  have hmain : d.start s = Except.error (StartErr.alreadyRunning pid
      ("Already running as " ++ toString pid ++ "\n") EX_OSERR) := by
    simp only [Daemon.start, h1]
    rw [if_pos h2]
  refine ⟨hmain, fun sF tr hc => ?_⟩
  rw [hmain] at hc
  exact Except.noConfusion hc

/-- Witness for C5 at a world whose pid file names the live process 4242. -/
theorem start_already_running_abort_wit :
    readPid sysRun.files dR.pidfile = some 4242 ∧ sysRun.live.contains 4242 = true ∧
    (dR.start sysRun = Except.error (StartErr.alreadyRunning 4242
        ("Already running as " ++ toString (4242 : Int) ++ "\n") EX_OSERR)
     ∧ ∀ sF tr, dR.start sysRun ≠ Except.ok (sF, tr)) :=
  ⟨rfl, rfl, start_already_running_abort dR sysRun 4242 rfl rfl⟩

/-- C6: when the pid file names a process that is not alive, `stop`
swallows the OSError from `os.kill` and returns normally — a successful
no-op, not an error — which is exactly the second call of the
stop-twice scenario. -/
theorem stop_dead_pid_is_noop (d : Daemon) (s : Sys) (content : String) (pid : Int)
    (h1 : lookupFile s.files d.pidfile = some content)
    (h2 : pyInt (pyStrip content) = some pid)
    (h3 : s.live.contains pid = false) :
    d.stop s = StopResult.noop pid
    ∧ (∀ m, d.stop s ≠ StopResult.sysExit m)
    ∧ (∀ m, d.stop s ≠ StopResult.typeError m) := by
  have hmain : d.stop s = StopResult.noop pid := by
    simp only [Daemon.stop, h1, h2]
    have hc : ¬(s.live.contains pid = true) := by
      intro hc2
      rw [h3] at hc2
      exact Bool.false_ne_true hc2
    rw [if_neg hc]
  refine ⟨hmain, fun m hc => ?_, fun m hc => ?_⟩
  · rw [hmain] at hc
    exact StopResult.noConfusion hc
  · rw [hmain] at hc
    exact StopResult.noConfusion hc

/-- Witness for C6 at a world whose pid file names the dead process 4242. -/
theorem stop_dead_pid_is_noop_wit :
    lookupFile sysGone.files dR.pidfile = some "4242" ∧
    pyInt (pyStrip "4242") = some 4242 ∧
    sysGone.live.contains 4242 = false ∧
    (dR.stop sysGone = StopResult.noop 4242
     ∧ (∀ m, dR.stop sysGone ≠ StopResult.sysExit m)
     ∧ (∀ m, dR.stop sysGone ≠ StopResult.typeError m)) :=
  ⟨rfl, rfl, rfl, stop_dead_pid_is_noop dR sysGone "4242" 4242 rfl rfl rfl⟩

/-- C7: on a pid file whose contents do not parse as a pid, `stop` does not
produce the intended "mangled pidfile" message: formatting
`'Error: mangled pidfile %s: %r' % self.pidfile` supplies one argument to a
two-specifier format string, so the process dies with the TypeError
"not enough arguments for format string" instead — and no signal is
delivered to any process. -/
theorem stop_corrupt_pidfile_typeerror (d : Daemon) (s : Sys) (content : String)
    (h1 : lookupFile s.files d.pidfile = some content)
    (h2 : pyInt (pyStrip content) = none) :
    d.stop s = StopResult.typeError "not enough arguments for format string"
    ∧ ∀ pid, d.stop s ≠ StopResult.signaled pid := by
  have hfmt : pyFormat "Error: mangled pidfile %s: %r" [d.pidfile] =
      Except.error "not enough arguments for format string" := rfl
  have hmain : d.stop s = StopResult.typeError "not enough arguments for format string" := by
    simp only [Daemon.stop, h1, h2, hfmt]
  refine ⟨hmain, fun pid hc => ?_⟩
  rw [hmain] at hc
  exact StopResult.noConfusion hc

/-- Witness for C7 at a world whose pid file holds "abc". -/
theorem stop_corrupt_pidfile_typeerror_wit :
    lookupFile sysMangled.files dR.pidfile = some "abc" ∧
    pyInt (pyStrip "abc") = none ∧
    (dR.stop sysMangled = StopResult.typeError "not enough arguments for format string"
     ∧ ∀ pid, dR.stop sysMangled ≠ StopResult.signaled pid) :=
  ⟨rfl, rfl, stop_corrupt_pidfile_typeerror dR sysMangled "abc" rfl rfl⟩

/-- C8 counterexample: an empty-string pid-file path passes the
construction checks (only `pidfile is None` is rejected), so construction
with a pid-file path that is present but empty succeeds — refuting the
claim that construction fails whenever the path is not a non-empty path. -/
theorem init_counterexample_empty_pidfile :
    Daemon.init db0 ["/"] (some "") (some "/") none PyVal.vNone PyVal.vNone
      "/dev/null" "/dev/null" "/dev/null"
      = InitResult.ok
          { pidfile := "",
            workdir := "/",
            sigmap := [(SIGTERM, Handler.defaultTerminate)],
            uid := none,
            gid := none,
            stdin := "/dev/null",
            stdout := "/dev/null",
            stderr := "/dev/null" } := rfl

/-- C8 amended: construction fails (via `sys.exit`) when the pid-file path
is absent (`None`) or when the working directory is absent or does not
exist as a directory; an empty-but-present pid-file path is accepted. The
constructor consumes no `Sys` state and spawns no process by construction
of the model. -/
theorem init_validation (db : NameDb) (dirs : List String) (wd : Option String)
    (sm : Option (List (Int × Handler))) (u g : PyVal) (si so se : String) :
    (Daemon.init db dirs none wd sm u g si so se
      = InitResult.sysExit "Error: no pid file specified")
    ∧ (∀ pf, wdOk wd dirs = false →
        Daemon.init db dirs (some pf) wd sm u g si so se
          = InitResult.sysExit ("Error: workdir " ++ sq ++ pyOptStr wd ++ sq
              ++ " does not exist")) := by
  refine ⟨rfl, fun pf hbad => ?_⟩
  simp only [Daemon.init]
  rw [if_pos hbad]

/-- Witness for C8: no pid file, and a missing workdir, each rejected. -/
theorem init_validation_wit :
    Daemon.init db0 [] none none none PyVal.vNone PyVal.vNone "a" "b" "c"
      = InitResult.sysExit "Error: no pid file specified" ∧
    wdOk (some "/nope") [] = false ∧
    Daemon.init db0 [] (some "p") (some "/nope") none PyVal.vNone PyVal.vNone "a" "b" "c"
      = InitResult.sysExit ("Error: workdir " ++ sq ++ pyOptStr (some "/nope") ++ sq
          ++ " does not exist") :=
  ⟨(init_validation db0 [] none none PyVal.vNone PyVal.vNone "a" "b" "c").1, rfl,
   (init_validation db0 [] (some "/nope") none PyVal.vNone PyVal.vNone "a" "b" "c").2 "p" rfl⟩

/-- C9: the singleton guard blocks `start` exactly when the pid file is
readable, parses as a pid, and that pid is alive; an unreadable or
non-numeric pid file (readPid none) never produces the already-running
abort — start silently proceeds to daemonize. -/
theorem start_guard_characterization (d : Daemon) (s : Sys) :
    (∃ pid msg c, d.start s = Except.error (StartErr.alreadyRunning pid msg c)) ↔
    (∃ pid, readPid s.files d.pidfile = some pid ∧ s.live.contains pid = true) := by
  constructor
  · rintro ⟨pid, msg, c, h⟩
    unfold Daemon.start at h
    split at h
    · rename_i pid0 hr
      split at h
      · rename_i hl
        exact ⟨pid0, hr, hl⟩
      · exact absurd h (startDetach_not_alreadyRunning d s pid msg c)
    · exact absurd h (startDetach_not_alreadyRunning d s pid msg c)
  · rintro ⟨pid, h1, h2⟩
    refine ⟨pid, "Already running as " ++ toString pid ++ "\n", EX_OSERR, ?_⟩
    simp only [Daemon.start, h1]
    rw [if_pos h2]

/-- C10: a `user` argument that is neither None, a string, nor an int is
rejected at construction time with a TypeError naming the offending
argument's type; likewise for `group` once `user` resolved — and the
constructor performs no process manipulation (it consumes no `Sys`
state at all). -/
theorem init_rejects_bad_user_group_type (db : NameDb) (dirs : List String) (pf w : String)
    (sm : Option (List (Int × Handler))) (g : PyVal) (t si so se : String)
    (hw : dirs.contains w = true) :
    (Daemon.init db dirs (some pf) (some w) sm (PyVal.vOther t) g si so se
      = InitResult.typeError ("user must be a string or int, but received a " ++ t))
    ∧ (∀ u r, resolveUser db u = Except.ok r →
        Daemon.init db dirs (some pf) (some w) sm u (PyVal.vOther t) si so se
          = InitResult.typeError ("group must be a string or int, but received a " ++ t)) := by
  have hvalid : ¬(wdOk (some w) dirs = false) := by
    intro hc
    simp only [wdOk] at hc
    rw [hw] at hc
    exact Bool.noConfusion hc
  constructor
  · simp only [Daemon.init]
    rw [if_neg hvalid]
    rfl
  · intro u r hu
    simp only [Daemon.init]
    rw [if_neg hvalid]
    simp only [hu]
    rfl

/-- Witness for C10 at a float-typed user and group. -/
theorem init_rejects_bad_user_group_type_wit :
    (["/"].contains "/" = true) ∧
    (Daemon.init db0 ["/"] (some "/run/d.pid") (some "/") none (PyVal.vOther "float")
        PyVal.vNone "a" "b" "c"
       = InitResult.typeError ("user must be a string or int, but received a " ++ "float")
     ∧ ∀ u r, resolveUser db0 u = Except.ok r →
        Daemon.init db0 ["/"] (some "/run/d.pid") (some "/") none u (PyVal.vOther "float")
          "a" "b" "c"
        = InitResult.typeError ("group must be a string or int, but received a " ++ "float")) :=
  ⟨rfl, init_rejects_bad_user_group_type db0 ["/"] "/run/d.pid" "/" none PyVal.vNone
    "float" "a" "b" "c" rfl⟩

end ElibDaemon
